import Mathlib

/-!
# secrets-controller: the Vault to Kubernetes synchroniser

A shallow embedding of `main.go`.  The program has two functions:

* `syncSecret` (main.go 104-144) reads one secret from Vault, converts its
  values to strings and creates or updates the Kubernetes secret of the same
  name;
* `main` (main.go 48-102) runs `syncSecret` once and then again after every
  ten-second sleep, logging the errors it returns.

The Vault and Kubernetes clients are libraries outside the program.  They are
taken as parameters (`Backends`): each call maps the state of the outside world
to a reply and a new state.  Go run-time panics (a failed single-value type
assertion, a nil pointer dereference) are modelled explicitly, since a panic is
not a returned error: nothing in the program recovers it.
-/

namespace SecretsController

/-! ## Go values -/

/-- A value of type `interface{}` as found in `vs.Data`: what the Vault client
decodes from JSON.  Only `str` has dynamic type `string`; a JSON number is a
`json.Number`, which is a distinct named type. -/
inductive GoValue where
  | str (s : String)
  | jsonNumber (digits : String)
  | bool (b : Bool)
  | null
  | array (xs : List GoValue)
  | object (kv : List (String × GoValue))

/-- Does the dynamic type of the value equal `string`?  This is the test made by
the type assertion `v.(string)`. -/
def GoValue.isString : GoValue → Bool
  | .str _ => true
  | _ => false

/-- The map type `map[string]interface{}` of `vs.Data`.  The order of `entries`
is the order in which `range` visits the map, which the Go run time chooses. -/
abbrev DataMap := AList (fun _ : String => GoValue)

/-- The map type `map[string]string` of `StringData`: a finite map, equal to
another one exactly when both hold the same keys with the same values. -/
abbrev StringMap := Finmap (fun _ : String => String)

/-- The map type `map[string][]byte` of `Secret.Data`. -/
abbrev BytesMap := Finmap (fun _ : String => List Nat)

/-- A Go `error` value that is not nil.  `apiError` is a `*k8s.APIError` with its
`Code` field; `errorString` is every other error, carrying its message (the
errors built by `fmt.Errorf`, the errors of the Vault client, network
errors). -/
inductive GoError where
  | apiError (code : Int) (status : String)
  | errorString (msg : String)
  deriving DecidableEq, Repr

/-- The constant `http.StatusNotFound`. -/
def StatusNotFound : Int := 404

/-- A run-time panic of the Go program. -/
inductive Panic where
  | typeAssertion
  | nilDereference
  deriving DecidableEq, Repr

/-! ## Library types -/

/-- The type `vaultapi.Secret`, the reply of a Vault read. -/
structure VaultSecret where
  RequestID : String
  LeaseID : String
  LeaseDuration : Int
  Renewable : Bool
  Data : DataMap

/-- The type `metav1.ObjectMeta`.  A pointer field is an `Option`. -/
structure ObjectMeta where
  Name : Option String
  GenerateName : Option String
  Namespace : Option String
  SelfLink : Option String
  Uid : Option String
  ResourceVersion : Option String
  Generation : Option Int
  Labels : StringMap
  Annotations : StringMap
  Finalizers : List String
  ClusterName : Option String
  deriving DecidableEq

/-- The type `v1.Secret`; `SecretType` is its field `Type`. -/
structure Secret where
  Metadata : Option ObjectMeta
  Data : BytesMap
  StringData : StringMap
  SecretType : Option String
  deriving DecidableEq

/-- The composite literal `&metav1.ObjectMeta{Name: n, Namespace: ns}`: every
other field has its zero value. -/
def ObjectMeta.literal (n ns : String) : ObjectMeta :=
  { Name := some n, GenerateName := none, Namespace := some ns, SelfLink := none,
    Uid := none, ResourceVersion := none, Generation := none, Labels := ∅,
    Annotations := ∅, Finalizers := [], ClusterName := none }

/-- The composite literal `&v1.Secret{Metadata: md, StringData: sd}`. -/
def Secret.literal (md : ObjectMeta) (sd : StringMap) : Secret :=
  { Metadata := some md, Data := ∅, StringData := sd, SecretType := none }

/-! ## Configuration and the two clients -/

/-- The package-level variables set once in `main` before the first sync:
`k8sClient.Namespace` (the flag `namespace`) and `secretName`. -/
structure Config where
  Namespace : String
  secretName : String

/-- The variable `secretPath`, `fmt.Sprintf("/secret/%s", secretName)`. -/
def secretPath (cfg : Config) : String :=
  "/secret/" ++ cfg.secretName

/-- What a client call gives back: the pointer result (nil is `none`), the
`error` result (nil is `none`) and the state of the outside world after the
call. -/
structure Reply (α σ : Type) where
  val : Option α
  err : Option GoError
  state : σ

/-- The four client calls of the program, over a state `σ` of the outside world
(the Vault server, the Kubernetes API server, the network). -/
structure Backends (σ : Type) where
  read : String → σ → Reply VaultSecret σ
  getSecret : String → String → σ → Reply Secret σ
  createSecret : Secret → σ → Reply Secret σ
  updateSecret : Secret → σ → Reply Secret σ

/-- A client call made by `syncSecret`, with its arguments. -/
inductive Call where
  | read (path : String)
  | getSecret (name ns : String)
  | createSecret (s : Secret)
  | updateSecret (s : Secret)
  deriving DecidableEq

/-- How a call of `syncSecret` ends: it returns an `error` (nil is `none`) or it
panics. -/
inductive Outcome where
  | returned (err : Option GoError)
  | panicked (p : Panic)
  deriving DecidableEq, Repr

/-- One execution of `syncSecret`: how it ended, the client calls it made in
order, and the state of the outside world at the end. -/
structure Run (σ : Type) where
  outcome : Outcome
  calls : List Call
  final : σ

/-! ## syncSecret -/

/-- The object built at main.go 122-128: `&v1.Secret{Metadata:
&metav1.ObjectMeta{Name: &secretName, Namespace: &k8sClient.Namespace},
StringData: stringData}`. -/
def newSecret (cfg : Config) (stringData : StringMap) : Secret :=
  Secret.literal (ObjectMeta.literal cfg.secretName cfg.Namespace) stringData

/-- The loop `for k, v := range vs.Data { stringData[k] = v.(string) }` of
main.go 115-117, over the entries still to visit and the map built so far.  The
single-value type assertion panics on a value that is not a string. -/
def convertLoop : List (Sigma fun _ : String => GoValue) → StringMap → Except Panic StringMap
  | [], m => .ok m
  | ⟨k, .str s⟩ :: rest, m => convertLoop rest (m.insert k s)
  | ⟨_, _⟩ :: _, _ => .error .typeAssertion

/-- The test `apiErr, ok := err.(*k8s.APIError); ok && apiErr.Code ==
http.StatusNotFound` of main.go 120-121. -/
def isNotFound : Option GoError → Bool
  | some (.apiError code _) => code == StatusNotFound
  | _ => false

/-- The function `syncSecret` of main.go 104-144. -/
def syncSecret {σ : Type} (cfg : Config) (b : Backends σ) (s₀ : σ) : Run σ :=
  let r := b.read (secretPath cfg) s₀
  let c₁ := [Call.read (secretPath cfg)]
  match r.err with
  | some err => ⟨.returned (some err), c₁, r.state⟩
  | none =>
    match r.val with
    | none =>
      ⟨.returned (some (.errorString (cfg.secretName ++ " does not exist."))), c₁, r.state⟩
    | some vs =>
      match convertLoop vs.Data.entries ∅ with
      | .error p => ⟨.panicked p, c₁, r.state⟩
      | .ok stringData =>
        let g := b.getSecret cfg.secretName cfg.Namespace r.state
        let c₂ := c₁ ++ [Call.getSecret cfg.secretName cfg.Namespace]
        if isNotFound g.err then
          let s := newSecret cfg stringData
          let w := b.createSecret s g.state
          match w.err with
          | some err => ⟨.returned (some err), c₂ ++ [Call.createSecret s], w.state⟩
          | none => ⟨.returned none, c₂ ++ [Call.createSecret s], w.state⟩
        else
          match g.val with
          | none => ⟨.panicked .nilDereference, c₂, g.state⟩
          | some ks =>
            let ks' := { ks with StringData := stringData }
            let w := b.updateSecret ks' g.state
            match w.err with
            | some err => ⟨.returned (some err), c₂ ++ [Call.updateSecret ks'], w.state⟩
            | none => ⟨.returned none, c₂ ++ [Call.updateSecret ks'], w.state⟩

/-- The reply of the Vault read made by `syncSecret` (main.go 105). -/
def readReply {σ : Type} (cfg : Config) (b : Backends σ) (s₀ : σ) : Reply VaultSecret σ :=
  b.read (secretPath cfg) s₀

/-- The reply of the `GetSecret` call made by `syncSecret` (main.go 119), which
follows the Vault read. -/
def getReply {σ : Type} (cfg : Config) (b : Backends σ) (s₀ : σ) : Reply Secret σ :=
  b.getSecret cfg.secretName cfg.Namespace (readReply cfg b s₀).state

/-- Every value of the payload has dynamic type `string`. -/
def allStrings (d : DataMap) : Prop :=
  ∀ e ∈ d.entries, e.2.isString = true

instance (d : DataMap) : Decidable (allStrings d) := by
  unfold allStrings; infer_instance

/-- The calls of a run that write to the destination store. -/
def Call.isWrite : Call → Bool
  | .createSecret _ => true
  | .updateSecret _ => true
  | _ => false

/-- The name and namespace in the metadata of a secret object: the object a
write of it targets. -/
def keyOf (s : Secret) : Option (String × String) :=
  match s.Metadata with
  | none => none
  | some md =>
    match md.Namespace, md.Name with
    | some ns, some n => some (ns, n)
    | _, _ => none

/-! ## main -/

/-- The constant `time.Second`, in nanoseconds. -/
def Second : Nat := 1000000000

/-- What the process does, as seen from outside `syncSecret`. -/
inductive Event where
  | println (msg : String)
  | printErr (err : GoError)
  | syncCall
  | syncReturn (err : Option GoError)
  | panic (p : Panic)
  | sleep (ns : Nat)
  deriving DecidableEq, Repr

/-- The process after some steps: the events so far, the state of the outside
world, and whether the process still runs (a panic that nothing recovers ends
it). -/
structure Proc (σ : Type) where
  events : List Event
  world : σ
  alive : Bool

/-- The statements `err := syncSecret(); if err != nil { log.Println(err) }` of
main.go 82-85 and 91-94.  A panic inside `syncSecret` is not recovered
anywhere, so it ends the process. -/
def syncAndLog {σ : Type} (cfg : Config) (b : Backends σ) (s : σ) : Proc σ :=
  let r := syncSecret cfg b s
  match r.outcome with
  | .returned none => ⟨[.syncCall, .syncReturn none], r.final, true⟩
  | .returned (some e) => ⟨[.syncCall, .syncReturn (some e), .printErr e], r.final, true⟩
  | .panicked p => ⟨[.syncCall, .panic p], r.final, false⟩

/-- The goroutine of main.go 88-96, `for { time.Sleep(10 * time.Second); ... }`,
observed for `n` iterations from the world state `s`. -/
def backgroundLoop {σ : Type} (cfg : Config) (b : Backends σ) : Nat → σ → Proc σ
  | 0, s => ⟨[], s, true⟩
  | n + 1, s =>
    let c := syncAndLog cfg b s
    if c.alive then
      let rest := backgroundLoop cfg b n c.world
      ⟨.sleep (10 * Second) :: c.events ++ rest.events, rest.world, rest.alive⟩
    else
      ⟨.sleep (10 * Second) :: c.events, c.world, false⟩

/-- The function `main` from main.go 80 on, after the clients have been set up,
observed until `n` calls of `syncSecret` have been started: the first call is
made at once (main.go 82), the others by the goroutine. -/
def main {σ : Type} (cfg : Config) (b : Backends σ) : Nat → σ → Proc σ
  | 0, s => ⟨[.println "Syncing Vault secrets..."], s, true⟩
  | n + 1, s =>
    let c := syncAndLog cfg b s
    if c.alive then
      let rest := backgroundLoop cfg b n c.world
      ⟨.println "Syncing Vault secrets..." :: c.events ++ rest.events, rest.world, rest.alive⟩
    else
      ⟨.println "Syncing Vault secrets..." :: c.events, c.world, false⟩

/-- The outcomes of `n` calls of `syncSecret` made one after the other from the
world state `s`. -/
def cycleOutcomes {σ : Type} (cfg : Config) (b : Backends σ) : Nat → σ → List Outcome
  | 0, _ => []
  | n + 1, s =>
    (syncSecret cfg b s).outcome :: cycleOutcomes cfg b n (syncSecret cfg b s).final

/-- Is the event a line of the log? -/
def Event.isLog : Event → Bool
  | .println _ => true
  | .printErr _ => true
  | _ => false

/-- The trace the specification gives for cycles with the results `rs`: one sync
at startup, then a ten-second sleep before every further sync. -/
def specTrace : List (Option GoError) → List Event
  | [] => []
  | r :: rs =>
    [.syncCall, .syncReturn r] ++
      rs.flatMap (fun r' => [.sleep (10 * Second), .syncCall, .syncReturn r'])

/-! ## A destination store in memory -/

/-- A model of the destination store, which is a service outside the program,
as the specification describes it: a map from the namespace and name of a
secret to the secret object. -/
abbrev Store := Finmap (fun _ : String × String => Secret)

/-- The store operation "get secret by name in namespace (may report
not-found)" of the specification.  A missing name is reported as an API error
with code 404 and no object. -/
def Store.get (name ns : String) (st : Store) : Reply Secret Store :=
  match st.lookup (ns, name) with
  | some s => ⟨some s, none, st⟩
  | none => ⟨none, some (.apiError StatusNotFound "NotFound"), st⟩

/-- The store operation "create secret" of the specification: it inserts the
object under its name and namespace; an object without them, or one that
exists already, is refused. -/
def Store.create (s : Secret) (st : Store) : Reply Secret Store :=
  match keyOf s with
  | none => ⟨none, some (.errorString "no name for given object"), st⟩
  | some key =>
    if (st.lookup key).isSome then ⟨none, some (.apiError 409 "AlreadyExists"), st⟩
    else ⟨some s, none, st.insert key s⟩

/-- The store operation "update secret (full object replace)" of the
specification: it replaces the object stored under the name and namespace of
the given one, and reports not-found when there is none. -/
def Store.update (s : Secret) (st : Store) : Reply Secret Store :=
  match keyOf s with
  | none => ⟨none, some (.errorString "no name for given object"), st⟩
  | some key =>
    if (st.lookup key).isSome then ⟨some s, none, st.insert key s⟩
    else ⟨none, some (.apiError StatusNotFound "NotFound"), st⟩

/-- Every object of the store is kept under its own namespace and name. -/
def Store.Consistent (st : Store) : Prop :=
  ∀ key s, st.lookup key = some s → keyOf s = some key

/-- The two clients over the store in memory; `vault` is what the Vault server
answers to a read of each path, and a read changes nothing. -/
def memBackends (vault : String → Option VaultSecret × Option GoError) : Backends Store :=
  { read := fun path st => ⟨(vault path).1, (vault path).2, st⟩
    getSecret := Store.get
    createSecret := Store.create
    updateSecret := Store.update }

/-- Clients whose replies are fixed in advance: the replies of the Vault read and
of `GetSecret`, and the errors of `CreateSecret` and `UpdateSecret`. -/
def scriptedBackends (rd : Option VaultSecret × Option GoError)
    (gt : Option Secret × Option GoError) (cr up : Option GoError) : Backends Unit :=
  { read := fun _ _ => ⟨rd.1, rd.2, ()⟩
    getSecret := fun _ _ _ => ⟨gt.1, gt.2, ()⟩
    createSecret := fun s _ => ⟨if cr.isSome then none else some s, cr, ()⟩
    updateSecret := fun s _ => ⟨if up.isSome then none else some s, up, ()⟩ }

/-! ## Sample inputs -/

/-- The configuration of the sample runs: secret `db-creds`, namespace
`default`. -/
def demoCfg : Config := { Namespace := "default", secretName := "db-creds" }

/-- A Vault reply carrying the given payload. -/
def vaultSecretOf (d : DataMap) : VaultSecret :=
  { RequestID := "", LeaseID := "", LeaseDuration := 0, Renewable := false, Data := d }

/-- The payload `{"password": "abc123"}`. -/
def payloadAbc : DataMap := AList.insert "password" (.str "abc123") ∅

/-- The payload `{"password": "new"}`. -/
def payloadNew : DataMap := AList.insert "password" (.str "new") ∅

/-- The payload `{"password": "abc123", "port": 8200}`, whose second value is a
JSON number. -/
def payloadPort : DataMap :=
  AList.insert "port" (.jsonNumber "8200") (AList.insert "password" (.str "abc123") ∅)

/-- A Vault server that holds the given payload at the path of `db-creds` and
nothing elsewhere. -/
def demoVault (d : DataMap) (path : String) : Option VaultSecret × Option GoError :=
  if path = "/secret/db-creds" then (some (vaultSecretOf d), none) else (none, none)

/-- The destination secret `db-creds` with string-data
`{"password": "old", "user": "x"}`. -/
def oldSecret : Secret :=
  newSecret demoCfg (Finmap.insert "user" "x" (Finmap.singleton "password" "old"))

/-- A store holding only `oldSecret`. -/
def oldStore : Store := Finmap.singleton ("default", "db-creds") oldSecret

/-! ## Theorems -/

/-- On entries that are all strings and have distinct keys the conversion loop
ends without a panic, and the map it returns holds every visited entry and,
for every other key, what the initial map held. -/
theorem convertLoop_ok (l : List (Sigma fun _ : String => GoValue)) :
    ∀ m : StringMap, (∀ e ∈ l, e.2.isString = true) → l.NodupKeys →
      ∃ m', convertLoop l m = .ok m' ∧
        ∀ k, (m'.lookup k).map GoValue.str =
          (List.dlookup k l <|> (m.lookup k).map GoValue.str) := by
  induction l with
  | nil => intro m _ _; exact ⟨m, rfl, fun k => by simp⟩
  | cons e rest ih =>
    intro m hs hn
    obtain ⟨k₀, v⟩ := e
    have hv := hs ⟨k₀, v⟩ (List.mem_cons_self _ _)
    cases v with
    | str x =>
      rw [List.nodupKeys_cons] at hn
      obtain ⟨m', hm', hl⟩ := ih (m.insert k₀ x)
        (fun e he => hs e (List.mem_cons_of_mem _ he)) hn.2
      refine ⟨m', by simpa [convertLoop] using hm', fun k => ?_⟩
      rw [hl k]
      by_cases hk : k = k₀
      · subst hk
        have : List.dlookup k rest = none := List.dlookup_eq_none.mpr hn.1
        simp [this, Finmap.lookup_insert]
      · have hne : k ≠ (⟨k₀, GoValue.str x⟩ : Sigma fun _ : String => GoValue).1 := hk
        rw [List.dlookup_cons_ne _ _ hne, Finmap.lookup_insert_of_ne _ hk]
    | jsonNumber _ => simp [GoValue.isString] at hv
    | bool _ => simp [GoValue.isString] at hv
    | null => simp [GoValue.isString] at hv
    | array _ => simp [GoValue.isString] at hv
    | object _ => simp [GoValue.isString] at hv

/-- On a payload whose values are all strings the conversion loop returns a map
with the keys of the payload, each with the string of the payload. -/
theorem convertLoop_allStrings (d : DataMap) (h : allStrings d) :
    ∃ sd, convertLoop d.entries ∅ = .ok sd ∧
      ∀ k, (sd.lookup k).map GoValue.str = d.lookup k := by
  obtain ⟨sd, hsd, hl⟩ := convertLoop_ok d.entries ∅ h d.nodupKeys
  refine ⟨sd, hsd, fun k => ?_⟩
  rw [hl k]
  simp [AList.lookup]

/-- On a payload with a value that is not a string the conversion loop
panics, whatever the order in which the entries are visited. -/
theorem convertLoop_panics (l : List (Sigma fun _ : String => GoValue)) :
    ∀ m : StringMap, (∃ e ∈ l, e.2.isString = false) →
      convertLoop l m = .error .typeAssertion := by
  induction l with
  | nil => intro m h; simp at h
  | cons e rest ih =>
    intro m h
    obtain ⟨k₀, v⟩ := e
    cases v with
    | str x =>
      have : ∃ e ∈ rest, e.2.isString = false := by
        obtain ⟨e, he, hf⟩ := h
        rcases List.mem_cons.mp he with rfl | he
        · simp [GoValue.isString] at hf
        · exact ⟨e, he, hf⟩
      simpa [convertLoop] using ih (m.insert k₀ x) this
    | jsonNumber _ => rfl
    | bool _ => rfl
    | null => rfl
    | array _ => rfl
    | object _ => rfl

/-- What `syncSecret` does once the Vault read has given a payload and the
conversion loop has built `sd`: the `GetSecret` call decides between one
`CreateSecret` call, one `UpdateSecret` call and a nil dereference, and the
error of the write call is what `syncSecret` returns. -/
theorem syncSecret_converted {σ : Type} (cfg : Config) (b : Backends σ) (s₀ : σ)
    (vs : VaultSecret) (sd : StringMap)
    (he : (readReply cfg b s₀).err = none) (hv : (readReply cfg b s₀).val = some vs)
    (hc : convertLoop vs.Data.entries ∅ = .ok sd) :
    syncSecret cfg b s₀ =
      if isNotFound (getReply cfg b s₀).err then
        ⟨.returned (b.createSecret (newSecret cfg sd) (getReply cfg b s₀).state).err,
          [.read (secretPath cfg), .getSecret cfg.secretName cfg.Namespace,
            .createSecret (newSecret cfg sd)],
          (b.createSecret (newSecret cfg sd) (getReply cfg b s₀).state).state⟩
      else
        match (getReply cfg b s₀).val with
        | none =>
          ⟨.panicked .nilDereference,
            [.read (secretPath cfg), .getSecret cfg.secretName cfg.Namespace],
            (getReply cfg b s₀).state⟩
        | some ks =>
          ⟨.returned
              (b.updateSecret { ks with StringData := sd } (getReply cfg b s₀).state).err,
            [.read (secretPath cfg), .getSecret cfg.secretName cfg.Namespace,
              .updateSecret { ks with StringData := sd }],
            (b.updateSecret { ks with StringData := sd } (getReply cfg b s₀).state).state⟩ := by
  unfold getReply
  unfold readReply at he hv ⊢
  unfold syncSecret
  simp only [he, hv, hc]
  split
  · split <;> simp_all
  · cases hg : (b.getSecret cfg.secretName cfg.Namespace (b.read (secretPath cfg) s₀).state).val with
    | none => simp
    | some ks => simp only []; split <;> simp_all

/-- What `syncSecret` does when the Vault read returns an error. -/
theorem syncSecret_of_read_err {σ : Type} (cfg : Config) (b : Backends σ) (s₀ : σ)
    (e : GoError) (he : (readReply cfg b s₀).err = some e) :
    syncSecret cfg b s₀ =
      ⟨.returned (some e), [.read (secretPath cfg)], (readReply cfg b s₀).state⟩ := by
  unfold readReply at he ⊢
  unfold syncSecret
  simp only [he]

/-- What `syncSecret` does when the Vault read returns neither an error nor a
secret. -/
theorem syncSecret_of_read_nil {σ : Type} (cfg : Config) (b : Backends σ) (s₀ : σ)
    (he : (readReply cfg b s₀).err = none) (hv : (readReply cfg b s₀).val = none) :
    syncSecret cfg b s₀ =
      ⟨.returned (some (.errorString (cfg.secretName ++ " does not exist."))),
        [.read (secretPath cfg)], (readReply cfg b s₀).state⟩ := by
  unfold readReply at he hv ⊢
  unfold syncSecret
  simp only [he, hv]

/-- What `syncSecret` does when the conversion loop panics. -/
theorem syncSecret_of_convert_panic {σ : Type} (cfg : Config) (b : Backends σ) (s₀ : σ)
    (vs : VaultSecret) (p : Panic)
    (he : (readReply cfg b s₀).err = none) (hv : (readReply cfg b s₀).val = some vs)
    (hc : convertLoop vs.Data.entries ∅ = .error p) :
    syncSecret cfg b s₀ =
      ⟨.panicked p, [.read (secretPath cfg)], (readReply cfg b s₀).state⟩ := by
  unfold readReply at he hv ⊢
  unfold syncSecret
  simp only [he, hv, hc]

/-! ### The create path and the update path -/

/-- C1: when the Vault read gives a payload whose values are all strings, the
`GetSecret` call for `secretName` reports an API error with code 404 and the
`CreateSecret` call succeeds, `syncSecret` returns nil after exactly the calls
read, get, create, and the object passed to create carries the name
`secretName`, the configured namespace, and string-data with the keys of the
payload and the value of the payload at each key. -/
theorem syncSecret_creates {σ : Type} (cfg : Config) (b : Backends σ) (s₀ : σ)
    (vs : VaultSecret)
    (he : (readReply cfg b s₀).err = none) (hv : (readReply cfg b s₀).val = some vs)
    (hs : allStrings vs.Data)
    (hg : ∃ status, (getReply cfg b s₀).err = some (.apiError 404 status))
    (hw : ∀ sd, convertLoop vs.Data.entries ∅ = .ok sd →
      (b.createSecret (newSecret cfg sd) (getReply cfg b s₀).state).err = none) :
    (syncSecret cfg b s₀).outcome = .returned none ∧
      ∃ s md, (syncSecret cfg b s₀).calls =
          [.read (secretPath cfg), .getSecret cfg.secretName cfg.Namespace, .createSecret s] ∧
        s.Metadata = some md ∧ md.Name = some cfg.secretName ∧
        md.Namespace = some cfg.Namespace ∧
        ∀ k, (s.StringData.lookup k).map GoValue.str = vs.Data.lookup k := by
  obtain ⟨sd, hc, hl⟩ := convertLoop_allStrings vs.Data hs
  obtain ⟨status, hst⟩ := hg
  have hnf : isNotFound (getReply cfg b s₀).err = true := by rw [hst]; rfl
  rw [syncSecret_converted cfg b s₀ vs sd he hv hc, if_pos hnf, hw sd hc]
  exact ⟨rfl, newSecret cfg sd, ObjectMeta.literal cfg.secretName cfg.Namespace, rfl, rfl, rfl,
    rfl, hl⟩

/-- The sample run of C1: the source holds `{"password": "abc123"}` under
`db-creds` and the destination store is empty; the run returns nil and the store
then holds `db-creds` in namespace `default` with string-data
`{"password": "abc123"}`. -/
theorem syncSecret_creates_witness :
    allStrings payloadAbc ∧
    ((syncSecret demoCfg (memBackends (demoVault payloadAbc)) ∅).outcome = .returned none ∧
      ∃ s md, (syncSecret demoCfg (memBackends (demoVault payloadAbc)) ∅).calls =
          [.read (secretPath demoCfg), .getSecret "db-creds" "default", .createSecret s] ∧
        s.Metadata = some md ∧ md.Name = some "db-creds" ∧ md.Namespace = some "default" ∧
        ∀ k, (s.StringData.lookup k).map GoValue.str = payloadAbc.lookup k) ∧
    (syncSecret demoCfg (memBackends (demoVault payloadAbc)) ∅).final =
      Finmap.singleton ("default", "db-creds")
        (newSecret demoCfg (Finmap.singleton "password" "abc123")) :=
  ⟨by decide,
    syncSecret_creates demoCfg (memBackends (demoVault payloadAbc)) ∅ (vaultSecretOf payloadAbc)
      rfl rfl (by decide) ⟨"NotFound", rfl⟩ (fun _ _ => rfl),
    by decide⟩

/-- C2: when the Vault read gives a payload whose values are all strings and the
`GetSecret` call returns an existing secret `ks`, the calls of `syncSecret` are
exactly read, get, update, and the object passed to update is `ks` with its
string-data replaced: the metadata, the data and the type are those of `ks`,
the string-data has the keys of the payload with the value of the payload at
each key, and a key absent from the payload is absent from it, whatever `ks`
held there.  This holds whether or not the update succeeds.  What `syncSecret`
returns is the error of that `UpdateSecret` call and the world is left as that
call left it; so if the update succeeds `syncSecret` returns nil. -/
theorem syncSecret_updates {σ : Type} (cfg : Config) (b : Backends σ) (s₀ : σ)
    (vs : VaultSecret) (ks : Secret)
    (he : (readReply cfg b s₀).err = none) (hv : (readReply cfg b s₀).val = some vs)
    (hs : allStrings vs.Data)
    (hge : (getReply cfg b s₀).err = none) (hgv : (getReply cfg b s₀).val = some ks) :
    ∃ o, (syncSecret cfg b s₀).calls =
          [.read (secretPath cfg), .getSecret cfg.secretName cfg.Namespace, .updateSecret o] ∧
        o.Metadata = ks.Metadata ∧ o.Data = ks.Data ∧ o.SecretType = ks.SecretType ∧
        (∀ k, (o.StringData.lookup k).map GoValue.str = vs.Data.lookup k) ∧
        (∀ k, vs.Data.lookup k = none → o.StringData.lookup k = none) ∧
        (syncSecret cfg b s₀).outcome =
          .returned (b.updateSecret o (getReply cfg b s₀).state).err ∧
        (syncSecret cfg b s₀).final = (b.updateSecret o (getReply cfg b s₀).state).state ∧
        ((b.updateSecret o (getReply cfg b s₀).state).err = none →
          (syncSecret cfg b s₀).outcome = .returned none) := by
  obtain ⟨sd, hc, hl⟩ := convertLoop_allStrings vs.Data hs
  have hnf : ¬ isNotFound (getReply cfg b s₀).err = true := by rw [hge]; simp [isNotFound]
  rw [syncSecret_converted cfg b s₀ vs sd he hv hc, if_neg hnf, hgv]
  refine ⟨{ ks with StringData := sd }, rfl, rfl, rfl, rfl, hl, fun k hk => ?_, rfl, rfl,
    fun h => ?_⟩
  · have := hl k
    rw [hk] at this
    simpa using this
  · simp only [h]

/-- Two sample runs of C2.  In the first the destination holds `db-creds` with
`{"password": "old", "user": "x"}` and the source holds `{"password": "new"}`;
the object passed to update is `db-creds` with string-data exactly
`{"password": "new"}`, the run returns nil and the store then holds that
object.  In the second the update is refused with code 409: the object passed
to update is the same and the error is returned. -/
theorem syncSecret_updates_witness :
    allStrings payloadNew ∧
    (∃ o, (syncSecret demoCfg (memBackends (demoVault payloadNew)) oldStore).calls =
          [.read (secretPath demoCfg), .getSecret "db-creds" "default", .updateSecret o] ∧
        o.Metadata = oldSecret.Metadata ∧ o.Data = oldSecret.Data ∧
        o.SecretType = oldSecret.SecretType ∧
        (∀ k, (o.StringData.lookup k).map GoValue.str = payloadNew.lookup k) ∧
        (∀ k, payloadNew.lookup k = none → o.StringData.lookup k = none) ∧
        (syncSecret demoCfg (memBackends (demoVault payloadNew)) oldStore).outcome =
          .returned (Store.update o oldStore).err ∧
        (syncSecret demoCfg (memBackends (demoVault payloadNew)) oldStore).final =
          (Store.update o oldStore).state ∧
        ((Store.update o oldStore).err = none →
          (syncSecret demoCfg (memBackends (demoVault payloadNew)) oldStore).outcome =
            .returned none)) ∧
    (syncSecret demoCfg (memBackends (demoVault payloadNew)) oldStore).outcome =
      .returned none ∧
    (syncSecret demoCfg (memBackends (demoVault payloadNew)) oldStore).calls =
      [.read "/secret/db-creds", .getSecret "db-creds" "default",
        .updateSecret (newSecret demoCfg (Finmap.singleton "password" "new"))] ∧
    (syncSecret demoCfg (memBackends (demoVault payloadNew)) oldStore).final =
      Finmap.singleton ("default", "db-creds")
        (newSecret demoCfg (Finmap.singleton "password" "new")) ∧
    (syncSecret demoCfg
        (scriptedBackends (some (vaultSecretOf payloadNew), none) (some oldSecret, none)
          none (some (.apiError 409 "Conflict"))) ()).calls =
      [.read "/secret/db-creds", .getSecret "db-creds" "default",
        .updateSecret (newSecret demoCfg (Finmap.singleton "password" "new"))] ∧
    (syncSecret demoCfg
        (scriptedBackends (some (vaultSecretOf payloadNew), none) (some oldSecret, none)
          none (some (.apiError 409 "Conflict"))) ()).outcome =
      .returned (some (.apiError 409 "Conflict")) :=
  ⟨by decide,
    syncSecret_updates demoCfg (memBackends (demoVault payloadNew)) oldStore
      (vaultSecretOf payloadNew) oldSecret rfl rfl (by decide) rfl rfl,
    by decide, by decide, by decide, by decide, by decide⟩

/-! ### Failures of the source read -/

/-- C3: when the Vault read returns the error `e`, `syncSecret` returns exactly
`e`; the read is the only client call it made (no get, create or update), and
the outside world is left as the read left it. -/
theorem syncSecret_read_error {σ : Type} (cfg : Config) (b : Backends σ) (s₀ : σ)
    (e : GoError) (he : (readReply cfg b s₀).err = some e) :
    (syncSecret cfg b s₀).outcome = .returned (some e) ∧
      (syncSecret cfg b s₀).calls = [.read (secretPath cfg)] ∧
      (syncSecret cfg b s₀).final = (readReply cfg b s₀).state := by
  rw [syncSecret_of_read_err cfg b s₀ e he]
  exact ⟨rfl, rfl, rfl⟩

/-- A sample run of C3: Vault is unreachable and the destination holds
`db-creds`; the run returns the error of the read and the store is as before. -/
theorem syncSecret_read_error_witness :
    ((syncSecret demoCfg
        (memBackends (fun _ => (none, some (.errorString "connection refused"))))
        oldStore).outcome = .returned (some (.errorString "connection refused")) ∧
      (syncSecret demoCfg
        (memBackends (fun _ => (none, some (.errorString "connection refused"))))
        oldStore).calls = [.read (secretPath demoCfg)] ∧
      (syncSecret demoCfg
        (memBackends (fun _ => (none, some (.errorString "connection refused"))))
        oldStore).final =
        (readReply demoCfg
          (memBackends (fun _ => (none, some (.errorString "connection refused"))))
          oldStore).state) ∧
    (readReply demoCfg
      (memBackends (fun _ => (none, some (.errorString "connection refused"))))
      oldStore).state = oldStore :=
  ⟨syncSecret_read_error demoCfg
      (memBackends (fun _ => (none, some (.errorString "connection refused")))) oldStore
      (.errorString "connection refused") rfl,
    rfl⟩

/-- C4: when the Vault read returns no error and no secret, `syncSecret` returns
an error with the message `secretName` followed by " does not exist."; the read
is the only client call it made (no get, create or update), and the outside
world is left as the read left it. -/
theorem syncSecret_source_absent {σ : Type} (cfg : Config) (b : Backends σ) (s₀ : σ)
    (he : (readReply cfg b s₀).err = none) (hv : (readReply cfg b s₀).val = none) :
    (syncSecret cfg b s₀).outcome =
        .returned (some (.errorString (cfg.secretName ++ " does not exist."))) ∧
      (syncSecret cfg b s₀).calls = [.read (secretPath cfg)] ∧
      (syncSecret cfg b s₀).final = (readReply cfg b s₀).state := by
  rw [syncSecret_of_read_nil cfg b s₀ he hv]
  exact ⟨rfl, rfl, rfl⟩

/-- A sample run of C4: Vault holds nothing and the destination holds `db-creds`
from an earlier sync; the run returns "db-creds does not exist." and the stored
object is still there, unchanged. -/
theorem syncSecret_source_absent_witness :
    ((syncSecret demoCfg (memBackends (fun _ => (none, none))) oldStore).outcome =
        .returned (some (.errorString ("db-creds" ++ " does not exist."))) ∧
      (syncSecret demoCfg (memBackends (fun _ => (none, none))) oldStore).calls =
        [.read (secretPath demoCfg)] ∧
      (syncSecret demoCfg (memBackends (fun _ => (none, none))) oldStore).final =
        (readReply demoCfg (memBackends (fun _ => (none, none))) oldStore).state) ∧
    "db-creds" ++ " does not exist." = "db-creds does not exist." ∧
    (syncSecret demoCfg (memBackends (fun _ => (none, none))) oldStore).final = oldStore :=
  ⟨syncSecret_source_absent demoCfg (memBackends (fun _ => (none, none))) oldStore rfl rfl,
    by decide, by decide⟩

/-! ### Failures of the destination calls -/

/-- Whenever `GetSecret` returns no object and its error is not an API error
with code 404 (also when the error is nil), `syncSecret` panics on the nil
dereference after the calls read and get, with no create and no update. -/
theorem syncSecret_nil_dereference {σ : Type} (cfg : Config) (b : Backends σ) (s₀ : σ)
    (vs : VaultSecret)
    (he : (readReply cfg b s₀).err = none) (hv : (readReply cfg b s₀).val = some vs)
    (hs : allStrings vs.Data)
    (hnf : isNotFound (getReply cfg b s₀).err = false)
    (hgv : (getReply cfg b s₀).val = none) :
    (syncSecret cfg b s₀).outcome = .panicked .nilDereference ∧
      (syncSecret cfg b s₀).calls =
        [.read (secretPath cfg), .getSecret cfg.secretName cfg.Namespace] := by
  obtain ⟨sd, hc, _⟩ := convertLoop_allStrings vs.Data hs
  have hnf' : ¬ isNotFound (getReply cfg b s₀).err = true := by simp [hnf]
  rw [syncSecret_converted cfg b s₀ vs sd he hv hc, if_neg hnf', hgv]
  exact ⟨rfl, rfl⟩

/-- C5, evaluated on the code: with a payload of strings and a `GetSecret` call
that returns no object and an error that is not a not-found condition (a
network error, or an API error with code 500), `syncSecret` does not return an
error: the error is dropped, the assignment `ks.StringData = stringData`
dereferences the nil `ks` and panics, and the process ends. -/
theorem syncSecret_get_error_panics :
    (syncSecret demoCfg
        (scriptedBackends (some (vaultSecretOf payloadAbc), none)
          (none, some (.errorString "connection refused")) none none) ()).outcome =
      .panicked .nilDereference ∧
    (syncSecret demoCfg
        (scriptedBackends (some (vaultSecretOf payloadAbc), none)
          (none, some (.apiError 500 "InternalError")) none none) ()).outcome =
      .panicked .nilDereference ∧
    (main demoCfg
        (scriptedBackends (some (vaultSecretOf payloadAbc), none)
          (none, some (.errorString "connection refused")) none none) 2 ()).alive = false ∧
    (main demoCfg
        (scriptedBackends (some (vaultSecretOf payloadAbc), none)
          (none, some (.errorString "connection refused")) none none) 2 ()).events =
      [.println "Syncing Vault secrets...", .syncCall, .panic .nilDereference] := by
  decide

/-- C7: with a payload of strings, on the not-found path an error `e` of the
`CreateSecret` call is exactly what `syncSecret` returns and the calls made are
read, get and that one create; on the path where `GetSecret` gave an object, an
error `e` of the `UpdateSecret` call is exactly what `syncSecret` returns and
the calls made are read, get and that one update.  The failing write is made
once and the other write is not tried. -/
theorem syncSecret_write_error {σ : Type} (cfg : Config) (b : Backends σ) (s₀ : σ)
    (vs : VaultSecret) (e : GoError)
    (he : (readReply cfg b s₀).err = none) (hv : (readReply cfg b s₀).val = some vs)
    (hs : allStrings vs.Data) :
    (isNotFound (getReply cfg b s₀).err = true →
      (∀ sd, convertLoop vs.Data.entries ∅ = .ok sd →
        (b.createSecret (newSecret cfg sd) (getReply cfg b s₀).state).err = some e) →
      (syncSecret cfg b s₀).outcome = .returned (some e) ∧
        ∃ s, (syncSecret cfg b s₀).calls =
          [.read (secretPath cfg), .getSecret cfg.secretName cfg.Namespace,
            .createSecret s]) ∧
    (isNotFound (getReply cfg b s₀).err = false →
      ∀ ks, (getReply cfg b s₀).val = some ks →
      (∀ sd, convertLoop vs.Data.entries ∅ = .ok sd →
        (b.updateSecret { ks with StringData := sd } (getReply cfg b s₀).state).err = some e) →
      (syncSecret cfg b s₀).outcome = .returned (some e) ∧
        ∃ o, (syncSecret cfg b s₀).calls =
          [.read (secretPath cfg), .getSecret cfg.secretName cfg.Namespace,
            .updateSecret o]) := by
  obtain ⟨sd, hc, _⟩ := convertLoop_allStrings vs.Data hs
  constructor
  · intro hnf hw
    rw [syncSecret_converted cfg b s₀ vs sd he hv hc, if_pos hnf, hw sd hc]
    exact ⟨rfl, _, rfl⟩
  · intro hnf ks hgv hw
    have hnf' : ¬ isNotFound (getReply cfg b s₀).err = true := by simp [hnf]
    rw [syncSecret_converted cfg b s₀ vs sd he hv hc, if_neg hnf', hgv]
    simp only [hw sd hc]
    exact ⟨trivial, _, rfl⟩

/-- Two sample runs of C7: a create refused with code 403 when the destination
has no `db-creds`, and an update refused with code 409 when it has one. -/
theorem syncSecret_write_error_witness :
    (allStrings payloadAbc ∧
      (syncSecret demoCfg
          (scriptedBackends (some (vaultSecretOf payloadAbc), none)
            (none, some (.apiError 404 "NotFound")) (some (.apiError 403 "Forbidden")) none)
          ()).outcome = .returned (some (.apiError 403 "Forbidden")) ∧
      ∃ s, (syncSecret demoCfg
          (scriptedBackends (some (vaultSecretOf payloadAbc), none)
            (none, some (.apiError 404 "NotFound")) (some (.apiError 403 "Forbidden")) none)
          ()).calls =
        [.read (secretPath demoCfg), .getSecret "db-creds" "default", .createSecret s]) ∧
    (allStrings payloadNew ∧
      (syncSecret demoCfg
          (scriptedBackends (some (vaultSecretOf payloadNew), none)
            (some oldSecret, none) none (some (.apiError 409 "Conflict")))
          ()).outcome = .returned (some (.apiError 409 "Conflict")) ∧
      ∃ o, (syncSecret demoCfg
          (scriptedBackends (some (vaultSecretOf payloadNew), none)
            (some oldSecret, none) none (some (.apiError 409 "Conflict")))
          ()).calls =
        [.read (secretPath demoCfg), .getSecret "db-creds" "default", .updateSecret o]) :=
  ⟨⟨by decide,
      (syncSecret_write_error demoCfg
        (scriptedBackends (some (vaultSecretOf payloadAbc), none)
          (none, some (.apiError 404 "NotFound")) (some (.apiError 403 "Forbidden")) none)
        () (vaultSecretOf payloadAbc) (.apiError 403 "Forbidden") rfl rfl (by decide)).1
        rfl (fun _ _ => rfl)⟩,
    ⟨by decide,
      (syncSecret_write_error demoCfg
        (scriptedBackends (some (vaultSecretOf payloadNew), none)
          (some oldSecret, none) none (some (.apiError 409 "Conflict")))
        () (vaultSecretOf payloadNew) (.apiError 409 "Conflict") rfl rfl (by decide)).2
        rfl oldSecret rfl (fun _ _ => rfl)⟩⟩

/-! ### A payload value that is not a string -/

/-- A cycle in which `syncSecret` panics ends the process: the panic follows
the call, no error is logged and the process no longer runs. -/
theorem syncAndLog_of_panic {σ : Type} (cfg : Config) (b : Backends σ) (s : σ) (p : Panic)
    (h : (syncSecret cfg b s).outcome = .panicked p) :
    syncAndLog cfg b s = ⟨[.syncCall, .panic p], (syncSecret cfg b s).final, false⟩ := by
  unfold syncAndLog
  simp only [h]

/-- The sample payload `payloadPort` has a value that is not a string. -/
theorem payloadPort_not_allStrings : ∃ e ∈ payloadPort.entries, e.2.isString = false :=
  ⟨⟨"port", .jsonNumber "8200"⟩, List.mem_cons_self _ _, rfl⟩

/-- C6 fails on the code: with the payload `{"password": "abc123", "port":
8200}`, whose second value is not a string, `syncSecret` returns no error to
its caller (it does not return at all), and `main` observed for two cycles has
run only one: the process has ended. -/
theorem syncSecret_nonstring_counterexample :
    (∃ e ∈ payloadPort.entries, e.2.isString = false) ∧
    (¬ ∃ err, (syncSecret demoCfg (memBackends (demoVault payloadPort)) ∅).outcome =
      .returned err) ∧
    (main demoCfg (memBackends (demoVault payloadPort)) 2 ∅).alive = false ∧
    (main demoCfg (memBackends (demoVault payloadPort)) 2 ∅).events.count .syncCall = 1 := by
  refine ⟨payloadPort_not_allStrings, ?_, by decide, by decide⟩
  have h : (syncSecret demoCfg (memBackends (demoVault payloadPort)) ∅).outcome =
      .panicked .typeAssertion := by decide
  rw [h]
  simp

/-- C6 as amended: when the Vault read gives a payload with at least one value
that is not a string, `syncSecret` panics at the type assertion; the read is
the only client call it made, and the panic ends the process: however long
`main` or its goroutine is observed from that state, the trace stops at the
panic of that cycle. -/
theorem syncSecret_nonstring_panics {σ : Type} (cfg : Config) (b : Backends σ) (s₀ : σ)
    (vs : VaultSecret)
    (he : (readReply cfg b s₀).err = none) (hv : (readReply cfg b s₀).val = some vs)
    (hn : ∃ e ∈ vs.Data.entries, e.2.isString = false) :
    (syncSecret cfg b s₀).outcome = .panicked .typeAssertion ∧
      (syncSecret cfg b s₀).calls = [.read (secretPath cfg)] ∧
      (∀ n, (main cfg b (n + 1) s₀).alive = false ∧
        (main cfg b (n + 1) s₀).events =
          [.println "Syncing Vault secrets...", .syncCall, .panic .typeAssertion]) ∧
      (∀ n, (backgroundLoop cfg b (n + 1) s₀).alive = false ∧
        (backgroundLoop cfg b (n + 1) s₀).events =
          [.sleep (10 * Second), .syncCall, .panic .typeAssertion]) := by
  have hc := convertLoop_panics vs.Data.entries ∅ hn
  have hrun := syncSecret_of_convert_panic cfg b s₀ vs .typeAssertion he hv hc
  have ho : (syncSecret cfg b s₀).outcome = .panicked .typeAssertion := by rw [hrun]
  have hsl := syncAndLog_of_panic cfg b s₀ .typeAssertion ho
  refine ⟨ho, by rw [hrun], fun n => ?_, fun n => ?_⟩
  · simp [main, hsl]
  · simp [backgroundLoop, hsl]

/-- A sample run of the amended C6: the payload
`{"password": "abc123", "port": 8200}`. -/
theorem syncSecret_nonstring_panics_witness :
    (∃ e ∈ payloadPort.entries, e.2.isString = false) ∧
    (syncSecret demoCfg (memBackends (demoVault payloadPort)) ∅).outcome =
      .panicked .typeAssertion ∧
    (syncSecret demoCfg (memBackends (demoVault payloadPort)) ∅).calls =
      [.read (secretPath demoCfg)] :=
  ⟨payloadPort_not_allStrings,
    (syncSecret_nonstring_panics demoCfg (memBackends (demoVault payloadPort)) ∅
      (vaultSecretOf payloadPort) rfl rfl payloadPort_not_allStrings).1,
    (syncSecret_nonstring_panics demoCfg (memBackends (demoVault payloadPort)) ∅
      (vaultSecretOf payloadPort) rfl rfl payloadPort_not_allStrings).2.1⟩

/-! ### The writes of a successful call -/

/-- C9: a call of `syncSecret` that returns nil has read a payload, converted it
to a map `sd`, and made exactly one write call, which succeeded and whose
effect is the state it ends in.  Either `GetSecret` reported not-found and the
write is one `CreateSecret` of the object with the name `secretName`, the
configured namespace and string-data `sd`; or `GetSecret`, asked for
`secretName` in the configured namespace, gave an object `ks` and the write is
one `UpdateSecret` of `ks` with its string-data replaced by `sd`, its name and
namespace being those of `ks` (so `secretName` and the configured namespace
when `GetSecret` answers with the object it was asked for).  The other write is
not made, and the program has no delete call. -/
theorem syncSecret_one_write {σ : Type} (cfg : Config) (b : Backends σ) (s₀ : σ)
    (hok : (syncSecret cfg b s₀).outcome = .returned none) :
    ∃ vs sd, (readReply cfg b s₀).val = some vs ∧ convertLoop vs.Data.entries ∅ = .ok sd ∧
      ((isNotFound (getReply cfg b s₀).err = true ∧
          (syncSecret cfg b s₀).calls =
            [.read (secretPath cfg), .getSecret cfg.secretName cfg.Namespace,
              .createSecret (newSecret cfg sd)] ∧
          (syncSecret cfg b s₀).calls.filter Call.isWrite =
            [.createSecret (newSecret cfg sd)] ∧
          keyOf (newSecret cfg sd) = some (cfg.Namespace, cfg.secretName) ∧
          (b.createSecret (newSecret cfg sd) (getReply cfg b s₀).state).err = none ∧
          (syncSecret cfg b s₀).final =
            (b.createSecret (newSecret cfg sd) (getReply cfg b s₀).state).state) ∨
        (isNotFound (getReply cfg b s₀).err = false ∧
          ∃ ks, (getReply cfg b s₀).val = some ks ∧
            (syncSecret cfg b s₀).calls =
              [.read (secretPath cfg), .getSecret cfg.secretName cfg.Namespace,
                .updateSecret { ks with StringData := sd }] ∧
            (syncSecret cfg b s₀).calls.filter Call.isWrite =
              [.updateSecret { ks with StringData := sd }] ∧
            keyOf { ks with StringData := sd } = keyOf ks ∧
            (keyOf ks = some (cfg.Namespace, cfg.secretName) →
              keyOf { ks with StringData := sd } = some (cfg.Namespace, cfg.secretName)) ∧
            (b.updateSecret { ks with StringData := sd } (getReply cfg b s₀).state).err =
              none ∧
            (syncSecret cfg b s₀).final =
              (b.updateSecret { ks with StringData := sd }
                (getReply cfg b s₀).state).state)) := by
  cases he : (readReply cfg b s₀).err with
  | some e => rw [syncSecret_of_read_err cfg b s₀ e he] at hok; simp at hok
  | none =>
    cases hv : (readReply cfg b s₀).val with
    | none => rw [syncSecret_of_read_nil cfg b s₀ he hv] at hok; simp at hok
    | some vs =>
      cases hc : convertLoop vs.Data.entries ∅ with
      | error p => rw [syncSecret_of_convert_panic cfg b s₀ vs p he hv hc] at hok; simp at hok
      | ok sd =>
        refine ⟨vs, sd, rfl, hc, ?_⟩
        rw [syncSecret_converted cfg b s₀ vs sd he hv hc] at hok ⊢
        by_cases hnf : isNotFound (getReply cfg b s₀).err = true
        · rw [if_pos hnf] at hok ⊢
          refine Or.inl ⟨hnf, rfl, by simp [Call.isWrite], rfl, ?_, rfl⟩
          simpa using hok
        · rw [if_neg hnf] at hok ⊢
          cases hgv : (getReply cfg b s₀).val with
          | none => rw [hgv] at hok; simp at hok
          | some ks =>
            rw [hgv] at hok
            refine Or.inr ⟨by simpa using hnf, ks, rfl, rfl, by simp [Call.isWrite], rfl,
              fun h => h, ?_, rfl⟩
            simpa using hok

/-- Two sample runs of C9 on the store in memory.  Into the empty store the one
write is the create of `db-creds` with `{"password": "abc123"}` and the store
then holds that object; over the stored `db-creds` the one write is the update
to `{"password": "new"}` and the store then holds that object, under the same
name and namespace. -/
theorem syncSecret_one_write_witness :
    (syncSecret demoCfg (memBackends (demoVault payloadAbc)) ∅).outcome = .returned none ∧
    (syncSecret demoCfg (memBackends (demoVault payloadAbc)) ∅).calls.filter Call.isWrite =
      [.createSecret (newSecret demoCfg (Finmap.singleton "password" "abc123"))] ∧
    (syncSecret demoCfg (memBackends (demoVault payloadAbc)) ∅).final =
      Finmap.singleton ("default", "db-creds")
        (newSecret demoCfg (Finmap.singleton "password" "abc123")) ∧
    (syncSecret demoCfg (memBackends (demoVault payloadNew)) oldStore).outcome =
      .returned none ∧
    (syncSecret demoCfg (memBackends (demoVault payloadNew)) oldStore).calls.filter
        Call.isWrite =
      [.updateSecret (newSecret demoCfg (Finmap.singleton "password" "new"))] ∧
    keyOf (newSecret demoCfg (Finmap.singleton "password" "new")) =
      some ("default", "db-creds") ∧
    (syncSecret demoCfg (memBackends (demoVault payloadNew)) oldStore).final =
      Finmap.singleton ("default", "db-creds")
        (newSecret demoCfg (Finmap.singleton "password" "new")) ∧
    (∃ vs sd, (readReply demoCfg (memBackends (demoVault payloadNew)) oldStore).val = some vs ∧
      convertLoop vs.Data.entries ∅ = .ok sd ∧
      ((isNotFound (getReply demoCfg (memBackends (demoVault payloadNew)) oldStore).err =
            true ∧
          (syncSecret demoCfg (memBackends (demoVault payloadNew)) oldStore).calls =
            [.read (secretPath demoCfg), .getSecret "db-creds" "default",
              .createSecret (newSecret demoCfg sd)] ∧
          (syncSecret demoCfg (memBackends (demoVault payloadNew)) oldStore).calls.filter
              Call.isWrite = [.createSecret (newSecret demoCfg sd)] ∧
          keyOf (newSecret demoCfg sd) = some ("default", "db-creds") ∧
          (Store.create (newSecret demoCfg sd)
            (getReply demoCfg (memBackends (demoVault payloadNew)) oldStore).state).err =
            none ∧
          (syncSecret demoCfg (memBackends (demoVault payloadNew)) oldStore).final =
            (Store.create (newSecret demoCfg sd)
              (getReply demoCfg (memBackends (demoVault payloadNew)) oldStore).state).state) ∨
        (isNotFound (getReply demoCfg (memBackends (demoVault payloadNew)) oldStore).err =
            false ∧
          ∃ ks, (getReply demoCfg (memBackends (demoVault payloadNew)) oldStore).val =
              some ks ∧
            (syncSecret demoCfg (memBackends (demoVault payloadNew)) oldStore).calls =
              [.read (secretPath demoCfg), .getSecret "db-creds" "default",
                .updateSecret { ks with StringData := sd }] ∧
            (syncSecret demoCfg (memBackends (demoVault payloadNew)) oldStore).calls.filter
                Call.isWrite = [.updateSecret { ks with StringData := sd }] ∧
            keyOf { ks with StringData := sd } = keyOf ks ∧
            (keyOf ks = some ("default", "db-creds") →
              keyOf { ks with StringData := sd } = some ("default", "db-creds")) ∧
            (Store.update { ks with StringData := sd }
              (getReply demoCfg (memBackends (demoVault payloadNew)) oldStore).state).err =
              none ∧
            (syncSecret demoCfg (memBackends (demoVault payloadNew)) oldStore).final =
              (Store.update { ks with StringData := sd }
                (getReply demoCfg (memBackends (demoVault payloadNew))
                  oldStore).state).state))) :=
  ⟨by decide, by decide, by decide, by decide, by decide, by decide, by decide,
    syncSecret_one_write demoCfg (memBackends (demoVault payloadNew)) oldStore (by decide)⟩

/-! ### The control loop -/

/-- A cycle in which `syncSecret` returns: the call, its return and, for an
error, one line of log; the process goes on. -/
theorem syncAndLog_of_returned {σ : Type} (cfg : Config) (b : Backends σ) (s : σ)
    (r : Option GoError) (h : (syncSecret cfg b s).outcome = .returned r) :
    (syncAndLog cfg b s).alive = true ∧
      (syncAndLog cfg b s).world = (syncSecret cfg b s).final ∧
      (syncAndLog cfg b s).events.filter (fun e => !e.isLog) = [.syncCall, .syncReturn r] ∧
      (syncAndLog cfg b s).events.filter Event.isLog = (r.map Event.printErr).toList := by
  unfold syncAndLog
  cases r with
  | none => simp [h, Event.isLog]
  | some e => simp [h, Event.isLog]

/-- The goroutine over cycles that all return: every cycle is a ten-second
sleep followed by the call and its return, and every error is logged once. -/
theorem backgroundLoop_trace {σ : Type} (cfg : Config) (b : Backends σ)
    (rs : List (Option GoError)) :
    ∀ s, cycleOutcomes cfg b rs.length s = rs.map .returned →
      (backgroundLoop cfg b rs.length s).alive = true ∧
        (backgroundLoop cfg b rs.length s).events.filter (fun e => !e.isLog) =
          rs.flatMap (fun r => [.sleep (10 * Second), .syncCall, .syncReturn r]) ∧
        (backgroundLoop cfg b rs.length s).events.filter Event.isLog =
          rs.filterMap (Option.map Event.printErr) := by
  induction rs with
  | nil => intro s _; simp [backgroundLoop]
  | cons r rs ih =>
    intro s h
    simp only [List.length_cons, cycleOutcomes, List.map_cons, List.cons.injEq] at h
    obtain ⟨ha, hw, hc, hl⟩ := syncAndLog_of_returned cfg b s r h.1
    obtain ⟨ia, ic, il⟩ := ih (syncSecret cfg b s).final h.2
    simp only [List.length_cons, backgroundLoop, ha, if_true, hw]
    refine ⟨ia, ?_, ?_⟩
    · simp only [List.filter_cons, List.filter_append, hc, ic, List.flatMap_cons]
      simp [Event.isLog]
    · simp only [List.filter_cons, List.filter_append, hl, il, List.filterMap_cons]
      cases r <;> simp [Event.isLog]

/-- C10: whatever the results of the cycles, as long as each call of `syncSecret`
returns (nil or an error), the process is still running after them and its
trace without the log lines is the trace of the specification: one sync at
startup before any sleep, then a ten-second sleep before each further sync,
each call followed by its return before the next event.  The log holds the
startup line and one line for each returned error, in order. -/
theorem main_trace {σ : Type} (cfg : Config) (b : Backends σ) (s₀ : σ)
    (rs : List (Option GoError))
    (h : cycleOutcomes cfg b rs.length s₀ = rs.map .returned) :
    (main cfg b rs.length s₀).alive = true ∧
      (main cfg b rs.length s₀).events.filter (fun e => !e.isLog) = specTrace rs ∧
      (main cfg b rs.length s₀).events.filter Event.isLog =
        .println "Syncing Vault secrets..." :: rs.filterMap (Option.map Event.printErr) := by
  cases rs with
  | nil => simp [main, specTrace, Event.isLog]
  | cons r rs =>
    simp only [List.length_cons, cycleOutcomes, List.map_cons, List.cons.injEq] at h
    obtain ⟨ha, hw, hc, hl⟩ := syncAndLog_of_returned cfg b s₀ r h.1
    obtain ⟨ia, ic, il⟩ := backgroundLoop_trace cfg b rs (syncSecret cfg b s₀).final h.2
    simp only [List.length_cons, main, ha, if_true, hw]
    refine ⟨ia, ?_, ?_⟩
    · simp only [List.filter_cons, List.filter_append, hc, ic, specTrace]
      simp [Event.isLog]
    · simp only [List.filter_cons, List.filter_append, hl, il, List.filterMap_cons]
      cases r <;> simp [Event.isLog]

/-- A sample run of C10: Vault holds nothing, so each of three cycles returns
the error "db-creds does not exist."; the loop goes on all the same. -/
theorem main_trace_witness :
    cycleOutcomes demoCfg (memBackends (fun _ => (none, none))) 3 oldStore =
      [.returned (some (.errorString "db-creds does not exist.")),
        .returned (some (.errorString "db-creds does not exist.")),
        .returned (some (.errorString "db-creds does not exist."))] ∧
    (main demoCfg (memBackends (fun _ => (none, none))) 3 oldStore).alive = true ∧
    (main demoCfg (memBackends (fun _ => (none, none))) 3 oldStore).events.filter
        (fun e => !e.isLog) =
      [.syncCall, .syncReturn (some (.errorString "db-creds does not exist.")),
        .sleep 10000000000,
        .syncCall, .syncReturn (some (.errorString "db-creds does not exist.")),
        .sleep 10000000000,
        .syncCall, .syncReturn (some (.errorString "db-creds does not exist."))] :=
  ⟨by decide,
    (main_trace demoCfg (memBackends (fun _ => (none, none))) oldStore
      [some (.errorString "db-creds does not exist."),
        some (.errorString "db-creds does not exist."),
        some (.errorString "db-creds does not exist.")] (by decide)).1,
    (main_trace demoCfg (memBackends (fun _ => (none, none))) oldStore
      [some (.errorString "db-creds does not exist."),
        some (.errorString "db-creds does not exist."),
        some (.errorString "db-creds does not exist.")] (by decide)).2.1⟩

/-! ### Idempotence over the store in memory -/

/-- The key of the object built by `syncSecret` for a create. -/
theorem keyOf_newSecret (cfg : Config) (sd : StringMap) :
    keyOf (newSecret cfg sd) = some (cfg.Namespace, cfg.secretName) := rfl

/-- Replacing the string-data of an object keeps its key. -/
theorem keyOf_withStringData (ks : Secret) (sd : StringMap) :
    keyOf { ks with StringData := sd } = keyOf ks := rfl

/-- A sync over the store in memory when the store has no object of the name:
the object is created. -/
theorem memSync_absent (cfg : Config) (vault : String → Option VaultSecret × Option GoError)
    (vs : VaultSecret) (sd : StringMap) (st : Store)
    (hv : vault (secretPath cfg) = (some vs, none))
    (hc : convertLoop vs.Data.entries ∅ = .ok sd)
    (hl : st.lookup (cfg.Namespace, cfg.secretName) = none) :
    (syncSecret cfg (memBackends vault) st).outcome = .returned none ∧
      (syncSecret cfg (memBackends vault) st).final =
        st.insert (cfg.Namespace, cfg.secretName) (newSecret cfg sd) := by
  have he : (readReply cfg (memBackends vault) st).err = none := by
    simp [readReply, memBackends, hv]
  have hval : (readReply cfg (memBackends vault) st).val = some vs := by
    simp [readReply, memBackends, hv]
  have hg : getReply cfg (memBackends vault) st =
      ⟨none, some (.apiError StatusNotFound "NotFound"), st⟩ := by
    simp [getReply, readReply, memBackends, Store.get, hl]
  have hnf : isNotFound (getReply cfg (memBackends vault) st).err = true := by
    rw [hg]; rfl
  have hcr : (memBackends vault).createSecret (newSecret cfg sd) st =
      ⟨some (newSecret cfg sd), none,
        st.insert (cfg.Namespace, cfg.secretName) (newSecret cfg sd)⟩ := by
    simp [memBackends, Store.create, keyOf_newSecret, hl]
  rw [syncSecret_converted cfg (memBackends vault) st vs sd he hval hc, if_pos hnf, hg]
  simp only [hcr]
  exact ⟨trivial, trivial⟩

/-- A sync over the store in memory when the store has an object of the name:
its string-data is replaced. -/
theorem memSync_present (cfg : Config) (vault : String → Option VaultSecret × Option GoError)
    (vs : VaultSecret) (sd : StringMap) (st : Store) (ks : Secret)
    (hv : vault (secretPath cfg) = (some vs, none))
    (hc : convertLoop vs.Data.entries ∅ = .ok sd)
    (hl : st.lookup (cfg.Namespace, cfg.secretName) = some ks)
    (hk : keyOf ks = some (cfg.Namespace, cfg.secretName)) :
    (syncSecret cfg (memBackends vault) st).outcome = .returned none ∧
      (syncSecret cfg (memBackends vault) st).final =
        st.insert (cfg.Namespace, cfg.secretName) { ks with StringData := sd } := by
  have he : (readReply cfg (memBackends vault) st).err = none := by
    simp [readReply, memBackends, hv]
  have hval : (readReply cfg (memBackends vault) st).val = some vs := by
    simp [readReply, memBackends, hv]
  have hg : getReply cfg (memBackends vault) st = ⟨some ks, none, st⟩ := by
    simp [getReply, readReply, memBackends, Store.get, hl]
  have hnf : ¬ isNotFound (getReply cfg (memBackends vault) st).err = true := by
    rw [hg]; simp [isNotFound]
  have hup : (memBackends vault).updateSecret { ks with StringData := sd } st =
      ⟨some { ks with StringData := sd }, none,
        st.insert (cfg.Namespace, cfg.secretName) { ks with StringData := sd }⟩ := by
    simp [memBackends, Store.update, keyOf_withStringData, hk, hl]
  rw [syncSecret_converted cfg (memBackends vault) st vs sd he hval hc, if_neg hnf, hg]
  simp only [hup]
  exact ⟨trivial, trivial⟩

/-- The map built by the conversion loop does not depend on the order in which
the entries of the payload are visited. -/
theorem convertLoop_perm (d₁ d₂ : DataMap) (sd₁ sd₂ : StringMap)
    (hp : d₂.entries.Perm d₁.entries)
    (h₁ : ∀ k, (sd₁.lookup k).map GoValue.str = d₁.lookup k)
    (h₂ : ∀ k, (sd₂.lookup k).map GoValue.str = d₂.lookup k) : sd₂ = sd₁ := by
  apply Finmap.ext_lookup
  intro k
  have hinj : Function.Injective (Option.map GoValue.str) :=
    Option.map_injective (fun a b h => by injection h)
  apply hinj
  rw [h₁ k, h₂ k, AList.perm_lookup hp]

/-- Storing an object under its own key keeps the store consistent. -/
theorem consistent_insert (st : Store) (key : String × String) (o : Secret)
    (h : st.Consistent) (hk : keyOf o = some key) : Store.Consistent (st.insert key o) := by
  intro key' s hs
  by_cases hkey : key' = key
  · subst hkey
    rw [Finmap.lookup_insert] at hs
    cases hs
    exact hk
  · rw [Finmap.lookup_insert_of_ne _ hkey] at hs
    exact h key' s hs

/-- The second of two syncs with the same payload, when the first one left the
object `o` with the string-data `sd` of the payload: it writes `o` again. -/
theorem memSync_again (cfg : Config) (vault : String → Option VaultSecret × Option GoError)
    (vs : VaultSecret) (sd : StringMap) (st : Store) (o : Secret)
    (hv : vault (secretPath cfg) = (some vs, none))
    (hc : convertLoop vs.Data.entries ∅ = .ok sd)
    (hk : keyOf o = some (cfg.Namespace, cfg.secretName)) (ho : o.StringData = sd) :
    (syncSecret cfg (memBackends vault)
        (st.insert (cfg.Namespace, cfg.secretName) o)).outcome = .returned none ∧
      (syncSecret cfg (memBackends vault)
        (st.insert (cfg.Namespace, cfg.secretName) o)).final =
        st.insert (cfg.Namespace, cfg.secretName) o := by
  obtain ⟨h₁, h₂⟩ := memSync_present cfg vault vs sd
    (st.insert (cfg.Namespace, cfg.secretName) o) o hv hc (Finmap.lookup_insert st) hk
  refine ⟨h₁, ?_⟩
  rw [h₂, Finmap.insert_insert]
  subst ho
  rfl

/-- C8: over the store in memory (create inserts, update replaces, get of a
missing name reports not-found), starting from any consistent store, two syncs
in a row with the same all-string payload both return nil and the store after
the second sync equals the store after the first; it holds an object under
`secretName` in the configured namespace, and no other entry of it carries
that name and namespace.  The payload may be visited in a different order by
the second sync. -/
theorem syncSecret_idempotent (cfg : Config)
    (vault₁ vault₂ : String → Option VaultSecret × Option GoError)
    (vs₁ vs₂ : VaultSecret) (st : Store)
    (h₁ : vault₁ (secretPath cfg) = (some vs₁, none))
    (h₂ : vault₂ (secretPath cfg) = (some vs₂, none))
    (hsame : vs₂.Data.entries.Perm vs₁.Data.entries)
    (hs : allStrings vs₁.Data)
    (hst : st.Consistent) :
    (syncSecret cfg (memBackends vault₁) st).outcome = .returned none ∧
      (syncSecret cfg (memBackends vault₂)
        (syncSecret cfg (memBackends vault₁) st).final).outcome = .returned none ∧
      (syncSecret cfg (memBackends vault₂)
        (syncSecret cfg (memBackends vault₁) st).final).final =
        (syncSecret cfg (memBackends vault₁) st).final ∧
      ∃! key, ∃ s,
        (syncSecret cfg (memBackends vault₂)
          (syncSecret cfg (memBackends vault₁) st).final).final.lookup key = some s ∧
        keyOf s = some (cfg.Namespace, cfg.secretName) := by
  obtain ⟨sd₁, hc₁, hl₁⟩ := convertLoop_allStrings vs₁.Data hs
  have hs₂ : allStrings vs₂.Data := fun e he => hs e (hsame.subset he)
  obtain ⟨sd₂, hc₂, hl₂⟩ := convertLoop_allStrings vs₂.Data hs₂
  have hsd : sd₂ = sd₁ := convertLoop_perm vs₁.Data vs₂.Data sd₁ sd₂ hsame hl₁ hl₂
  subst hsd
  have key_fact : ∃ o, keyOf o = some (cfg.Namespace, cfg.secretName) ∧ o.StringData = sd₂ ∧
      (syncSecret cfg (memBackends vault₁) st).outcome = .returned none ∧
      (syncSecret cfg (memBackends vault₁) st).final =
        st.insert (cfg.Namespace, cfg.secretName) o := by
    cases hlk : st.lookup (cfg.Namespace, cfg.secretName) with
    | none =>
      obtain ⟨a, c⟩ := memSync_absent cfg vault₁ vs₁ sd₂ st h₁ hc₁ hlk
      exact ⟨newSecret cfg sd₂, rfl, rfl, a, c⟩
    | some ks =>
      have hk := hst _ _ hlk
      obtain ⟨a, c⟩ := memSync_present cfg vault₁ vs₁ sd₂ st ks h₁ hc₁ hlk hk
      exact ⟨{ ks with StringData := sd₂ }, hk, rfl, a, c⟩
  obtain ⟨o, hk, ho, hout, hfin⟩ := key_fact
  obtain ⟨a₂, c₂⟩ := memSync_again cfg vault₂ vs₂ sd₂ st o h₂ hc₂ hk ho
  rw [hfin]
  refine ⟨hout, a₂, c₂, ?_⟩
  rw [c₂]
  have hcons := consistent_insert st (cfg.Namespace, cfg.secretName) o hst hk
  refine ⟨(cfg.Namespace, cfg.secretName), ⟨o, Finmap.lookup_insert st, hk⟩, ?_⟩
  rintro key' ⟨s, hs', hks⟩
  have := hcons key' s hs'
  rw [hks] at this
  exact (Option.some.inj this).symm

/-- A store with one object is consistent when the object is kept under its own
key. -/
theorem oldStore_consistent : oldStore.Consistent := by
  intro key s h
  by_cases hkey : key = ("default", "db-creds")
  · subst hkey
    have : oldStore.lookup ("default", "db-creds") = some oldSecret := by decide
    rw [this] at h
    cases h
    rfl
  · have : oldStore.lookup key = none := by
      unfold oldStore
      rw [Finmap.lookup_eq_none, Finmap.mem_singleton]
      exact hkey
    rw [this] at h
    cases h

/-- A sample run of C8: the store holds `db-creds` with
`{"password": "old", "user": "x"}` and the source holds `{"password": "new"}`;
after the first sync and after the second one the store holds `db-creds` with
exactly `{"password": "new"}`. -/
theorem syncSecret_idempotent_witness :
    allStrings payloadNew ∧ oldStore.Consistent ∧
    ((syncSecret demoCfg (memBackends (demoVault payloadNew)) oldStore).outcome =
        .returned none ∧
      (syncSecret demoCfg (memBackends (demoVault payloadNew))
        (syncSecret demoCfg (memBackends (demoVault payloadNew)) oldStore).final).outcome =
        .returned none ∧
      (syncSecret demoCfg (memBackends (demoVault payloadNew))
        (syncSecret demoCfg (memBackends (demoVault payloadNew)) oldStore).final).final =
        (syncSecret demoCfg (memBackends (demoVault payloadNew)) oldStore).final ∧
      ∃! key, ∃ s,
        (syncSecret demoCfg (memBackends (demoVault payloadNew))
          (syncSecret demoCfg (memBackends (demoVault payloadNew))
            oldStore).final).final.lookup key = some s ∧
        keyOf s = some ("default", "db-creds")) ∧
    (syncSecret demoCfg (memBackends (demoVault payloadNew))
        (syncSecret demoCfg (memBackends (demoVault payloadNew)) oldStore).final).final =
      Finmap.singleton ("default", "db-creds")
        (newSecret demoCfg (Finmap.singleton "password" "new")) :=
  ⟨by decide, oldStore_consistent,
    syncSecret_idempotent demoCfg (demoVault payloadNew) (demoVault payloadNew)
      (vaultSecretOf payloadNew) (vaultSecretOf payloadNew) oldStore rfl rfl
      (List.Perm.refl _) (by decide) oldStore_consistent,
    by decide⟩

end SecretsController
